import Mathlib

/-!
Shallow embedding of the EU acceptance map application
(`src/interactive_map_app.py`): the dataset loader/normalizer
(`load_data`), the country-name and geo-code resolutions, the
question-label filter and the formatted display table, together with
theorems settling the specification claims about them.
-/

namespace EUMap

/-- The apostrophe character (U+0027), used inside the source question
identifiers such as the sheet names. -/
def apos : Char := Char.ofNat 39

/-- A one-character string holding an apostrophe. -/
def aposStr : String := String.mk [apos]

/-- One row of the source CSV file
`EU_Acceptance_QB15_Combined_from_XLSX.csv`: columns `question`,
`code` and `acceptance`. -/
structure SourceRow where
  question : String
  code : String
  acceptance : ℚ
deriving DecidableEq

/-- Source question identifier of sheet QB15_1. -/
def qid1 : String := "Question from sheet " ++ aposStr ++ "QB15_1" ++ aposStr

/-- Source question identifier of sheet QB15_2. -/
def qid2 : String := "Question from sheet " ++ aposStr ++ "QB15_2" ++ aposStr

/-- Source question identifier of sheet QB15_3. -/
def qid3 : String := "Question from sheet " ++ aposStr ++ "QB15_3" ++ aposStr

/-- Source question identifier of sheet QB15_4. -/
def qid4 : String := "Question from sheet " ++ aposStr ++ "QB15_4" ++ aposStr

/-- The hardcoded `question_mapping` dictionary of `load_data`:
source question identifier to human-readable label, four entries. -/
def question_mapping : List (String × String) :=
  [(qid1, "Equal rights for gay, lesbian, and bisexual people"),
   (qid2, "Acceptance of same-sex relationships"),
   (qid3, "Allowance of same-sex marriage throughout Europe"),
   (qid4, "Adoption rights for same-sex couples")]

/-- The four human-readable labels of `question_mapping`. -/
def fixedLabels : List String := question_mapping.map Prod.snd

/-- The keys (source identifiers) of `question_mapping`. -/
def questionKeys : List String := question_mapping.map Prod.fst

/-- Semantics of the pandas `Series.replace` call with a dictionary
argument on one cell: a value equal to a key of the dictionary is
replaced by that key's value, any other value passes through
verbatim. -/
def replaceVal (m : List (String × String)) (v : String) : String :=
  (m.lookup v).getD v

/-- The `code_mapping` dictionary of `load_data`: the fixed hand-written
alpha-2 to alpha-3 geocoding table with 27 EU entries. -/
def code_mapping : List (String × String) :=
  [("BE", "BEL"), ("BG", "BGR"), ("CZ", "CZE"), ("DK", "DNK"), ("DE", "DEU"),
   ("EE", "EST"), ("IE", "IRL"), ("GR", "GRC"), ("ES", "ESP"), ("FR", "FRA"),
   ("HR", "HRV"), ("IT", "ITA"), ("CY", "CYP"), ("LV", "LVA"), ("LT", "LTU"),
   ("LU", "LUX"), ("HU", "HUN"), ("MT", "MLT"), ("NL", "NLD"), ("AT", "AUT"),
   ("PL", "POL"), ("PT", "PRT"), ("RO", "ROU"), ("SI", "SVN"), ("SK", "SVK"),
   ("FI", "FIN"), ("SE", "SWE")]

/-- The `get_country_name` helper of `load_data`: look the alpha-2 code
up in the external reference table (`pycountry.countries`, passed here
as the function `L`); when the lookup yields nothing (the Python code
catches the `AttributeError` raised by `.name` on `None`), return the
original code. -/
def get_country_name (L : String → Option String) (code : String) : String :=
  match L code with
  | some n => n
  | none => code

/-- Modelled from the spec: the external pycountry alpha-2 to name
reference table, which is a third-party library and not part of the
repository. The spec names two of its entries, Belgium for BE and
Germany for DE; other codes are left unresolved in this model. -/
def pycountry_lookup : String → Option String := fun c =>
  if c = "BE" then some "Belgium"
  else if c = "DE" then some "Germany"
  else none

/-- One row of the normalized table returned by `load_data`: the source
columns after question relabeling, plus the derived columns
`country_name` and `iso_alpha`. -/
structure Row where
  question : String
  code : String
  acceptance : ℚ
  country_name : String
  iso_alpha : Option String
deriving DecidableEq

/-- Normalization of one source row by `load_data`: relabel the
question via `question_mapping`, resolve `country_name` via
`get_country_name`, and map the alpha-2 code to `iso_alpha` via
`code_mapping` (a missing key gives a missing value, as the pandas
`Series.map` call does). -/
def normRow (L : String → Option String) (s : SourceRow) : Row :=
  ⟨replaceVal question_mapping s.question,
   s.code,
   s.acceptance,
   get_country_name L s.code,
   code_mapping.lookup s.code⟩

/-- The normalization applied by `load_data` to the whole table. -/
def normalize (L : String → Option String) (t : List SourceRow) : List Row :=
  t.map (normRow L)

/-- Outcome of the `pd.read_csv` call: the parsed table, a
`FileNotFoundError` (the file is absent), or any other fault. -/
inductive ReadCSV where
  | ok (t : List SourceRow)
  | fileNotFound
  | failed (msg : String)
deriving DecidableEq

/-- The `load_data` function: `pd.read_csv` inside a `try` block whose
only handler catches `FileNotFoundError` and returns `None`; any other
fault propagates to the caller; on success the normalized table is
returned. -/
def load_data (L : String → Option String) (r : ReadCSV) :
    Except String (Option (List Row)) :=
  match r with
  | ReadCSV.fileNotFound => Except.ok none
  | ReadCSV.failed e => Except.error e
  | ReadCSV.ok t => Except.ok (some (normalize L t))

/-- The boolean mask `df['question'] == selected_question`. -/
def boolMask (t : List Row) (l : String) : List Bool :=
  t.map (fun r => r.question == l)

/-- Row selection by a boolean mask, as pandas `df[mask]` does: keep
exactly the rows whose mask entry is true, in order. -/
def maskSelect : List Row → List Bool → List Row
  | [], _ => []
  | _ :: _, [] => []
  | r :: rs, b :: bs => if b then r :: maskSelect rs bs else maskSelect rs bs

/-- The filtered table `df_filtered = df[df['question'] == selected_question]`. -/
def df_filtered (t : List Row) (l : String) : List Row :=
  maskSelect t (boolMask t l)

/-- Column projection of the display table: `df_filtered[['country_name',
'acceptance']]` followed by the column rename (the rename changes only
column headers, which a positional pair does not carry). -/
def projRow (r : Row) : String × ℚ := (r.country_name, r.acceptance)

/-- Descending comparison on the numeric acceptance component, the order
of `sort_values('Acceptance (%)', ascending=False)`. -/
def accDesc (a b : String × ℚ) : Prop := b.2 ≤ a.2

instance : DecidableRel accDesc := fun a b =>
  inferInstanceAs (Decidable (b.2 ≤ a.2))

instance : IsTotal (String × ℚ) accDesc :=
  ⟨fun a b => le_total b.2 a.2⟩

instance : IsTrans (String × ℚ) accDesc :=
  ⟨fun _ _ _ h₁ h₂ => le_trans h₂ h₁⟩

/-- The sorting step of the display table, descending on acceptance. -/
def sortDesc (l : List (String × ℚ)) : List (String × ℚ) :=
  List.insertionSort accDesc l

/-- Decimal rendering of an acceptance value, as Python `str` prints the
float64 values of the acceptance column (the source data carries one
decimal place, so an integer prints with a trailing `.0` and a multiple
of one tenth prints with its single decimal digit). -/
def pyFloatStr (q : ℚ) : String :=
  if q.den = 1 then toString q.num ++ ".0"
  else if 10 % q.den = 0 then
    toString (q.num * ((10 / q.den : ℕ) : ℤ) / 10) ++ "." ++
      toString (q.num * ((10 / q.den : ℕ) : ℤ) % 10)
  else toString q

/-- The percent-string conversion applied to the display copy:
`df_display['Acceptance (%)'] = df_display['Acceptance (%)'].astype(str) + '%'`. -/
def renderCell (p : String × ℚ) : String × String :=
  (p.1, pyFloatStr p.2 ++ "%")

/-- The sorted numeric display table, before the percent-string
conversion: projection, rename and `sort_values` descending. -/
def df_display_sorted (fl : List Row) : List (String × ℚ) :=
  sortDesc (fl.map projRow)

/-- The final display table shown in the expander: the sorted
projection with the acceptance column converted to percent strings. -/
def df_display (fl : List Row) : List (String × String) :=
  (df_display_sorted fl).map renderCell

/-- The interactive session state: the table returned by `load_data`,
held in the `st.cache_data` cache for the lifetime of the session. -/
structure AppState where
  df : List Row
deriving DecidableEq

/-- One user selection: compute the filtered table and the display
table from the cached table, and return them with the session state. The
only in-place write of the script, the percent conversion,
targets the fresh copy made by the column projection and rename,
which `df_display` already contains. -/
def runSelection (s : AppState) (l : String) :
    (List Row × List (String × String)) × AppState :=
  let fl := df_filtered s.df l
  let disp := df_display fl
  ((fl, disp), s)

/-- A whole interactive session: fold any sequence of selections over
the state. -/
def runSelections (s : AppState) : List String → AppState
  | [] => s
  | l :: ls => runSelections (runSelection s l).2 ls

/-- The acceptance value 84.5 of the specification scenario, as the
reduced rational 169/2. -/
def q845 : ℚ := ⟨169, 2, by decide, by decide⟩

/-- The two-row source table of the specification scenario: sheet-1
question, Belgium at 91.0 and Germany at 84.5. -/
def sampleSource : List SourceRow :=
  [⟨qid1, "BE", 91⟩, ⟨qid1, "DE", q845⟩]

/-- The normalized form of `sampleSource`. -/
def sampleTable : List Row := normalize pycountry_lookup sampleSource

/-- The label of sheet QB15_1. -/
def lbl1 : String := "Equal rights for gay, lesbian, and bisexual people"

/-- The normalized Belgium row of the specification scenario. -/
def rowBE : Row := normRow pycountry_lookup ⟨qid1, "BE", 91⟩

/-- A source row whose question identifier lies outside the fixed
four-identifier mapping. -/
def bogusRow : SourceRow := ⟨"bogus", "BE", 50⟩

/-- Pandas boolean-mask selection agrees with `List.filter`: selecting
by the mask `question == l` is filtering by that predicate. -/
theorem df_filtered_eq_filter :
    ∀ (t : List Row) (l : String),
      df_filtered t l = t.filter (fun r => r.question == l)
  | [], _ => rfl
  | r :: rs, l => by
    have ih := df_filtered_eq_filter rs l
    simp only [df_filtered, boolMask, List.map_cons, List.filter_cons] at *
    by_cases h : r.question == l
    · simp [maskSelect, h, ih]
    · simp [maskSelect, h, ih]

/-- A key absent from the key column of an association list looks up to
nothing. -/
theorem lookup_eq_none_of_not_mem_keys {β : Type} :
    ∀ (m : List (String × β)) (c : String),
      c ∉ m.map Prod.fst → m.lookup c = none
  | [], _, _ => rfl
  | (k, v) :: rest, c, h => by
    simp only [List.map_cons, List.mem_cons, not_or] at h
    have hck : (c == k) = false := by simp [h.1]
    simp only [List.lookup_cons, hck]
    exact lookup_eq_none_of_not_mem_keys rest c h.2

/-- In an association list with pairwise-distinct keys, a pair present
in the list is what its key looks up to. -/
theorem lookup_eq_some_of_mem {β : Type} :
    ∀ (m : List (String × β)), (m.map Prod.fst).Nodup →
      ∀ (c : String) (v : β), (c, v) ∈ m → m.lookup c = some v
  | [], _, _, _, h => absurd h (List.not_mem_nil _)
  | (k, w) :: rest, hnd, c, v, h => by
    simp only [List.map_cons, List.nodup_cons] at hnd
    rcases List.mem_cons.mp h with h1 | h2
    · rw [Prod.mk.injEq] at h1
      simp [List.lookup_cons, h1.1, h1.2]
    · have hck : (c == k) = false := by
        have hc : c ∈ rest.map Prod.fst := List.mem_map_of_mem Prod.fst h2
        simp only [beq_eq_false_iff_ne, ne_eq]
        intro he
        exact hnd.1 (he ▸ hc)
      simp only [List.lookup_cons, hck]
      exact lookup_eq_some_of_mem rest hnd.2 c v h2

/-- A row of the normalized table carries as `iso_alpha` exactly the
`code_mapping` lookup of its own `country_code`. -/
theorem mem_normalize_iso (L : String → Option String) (t : List SourceRow)
    (r : Row) (h : r ∈ normalize L t) :
    r.iso_alpha = code_mapping.lookup r.code := by
  rcases List.mem_map.mp h with ⟨s, _, rfl⟩
  rfl

/-- A question identifier from the fixed key set relabels into the
fixed label set. -/
theorem replaceVal_mem_labels (q : String) (hq : q ∈ questionKeys) :
    replaceVal question_mapping q ∈ fixedLabels := by
  fin_cases hq <;> decide

/-- C1 (as stated, refuted): it is not true that for every source
table each row of the normalized table carries a label from the fixed
question-label set — a source row whose question identifier is outside
the fixed mapping keeps that identifier verbatim as its label. -/
theorem c1_labels_counterexample :
    ¬ (∀ (t : List SourceRow) (r : Row),
        r ∈ normalize pycountry_lookup t → r.question ∈ fixedLabels) := by
  intro h
  have hb := h [bogusRow] (normRow pycountry_lookup bogusRow) (by decide)
  revert hb
  decide

/-- C1 (amended): for every source table all of whose rows carry a
question identifier from the fixed mapping, every row of the
normalized table carries a label from the fixed label set, which has
exactly 4 elements — so the observed labels form a set of size at most
4 drawn from the fixed question set. -/
theorem c1_labels_amended (L : String → Option String) (t : List SourceRow)
    (hkeys : ∀ s ∈ t, s.question ∈ questionKeys) :
    (∀ r ∈ normalize L t, r.question ∈ fixedLabels) ∧
    fixedLabels.length = 4 := by
  refine ⟨?_, by decide⟩
  intro r hr
  rcases List.mem_map.mp hr with ⟨s, hs, rfl⟩
  exact replaceVal_mem_labels s.question (hkeys s hs)

/-- Witness for C1 (amended) at the two-row scenario table: the
normalized Belgium row carries a label of the fixed set. -/
theorem c1_labels_amended_witness : rowBE.question ∈ fixedLabels :=
  (c1_labels_amended pycountry_lookup sampleSource (by decide)).1 rowBE
    (by decide)

/-- C2: the geocoding table has 27 entries; a normalized row whose
`country_code` is a key of that table carries the table's value as its
`geo_code` (`iso_alpha`), any other row carries a missing `geo_code`,
and the resolution is deterministic: rows with equal codes carry equal
`geo_code` results, across any two normalized tables. -/
theorem c2_geo_code (L : String → Option String) (t : List SourceRow)
    (r : Row) (h : r ∈ normalize L t) :
    code_mapping.length = 27 ∧
    (∀ v, (r.code, v) ∈ code_mapping → r.iso_alpha = some v) ∧
    (r.code ∉ code_mapping.map Prod.fst → r.iso_alpha = none) ∧
    (∀ (t₂ : List SourceRow) (r₂ : Row), r₂ ∈ normalize L t₂ →
      r.code = r₂.code → r.iso_alpha = r₂.iso_alpha) := by
  have hr := mem_normalize_iso L t r h
  refine ⟨by decide, ?_, ?_, ?_⟩
  · intro v hv
    rw [hr]
    exact lookup_eq_some_of_mem code_mapping (by decide) r.code v hv
  · intro hnk
    rw [hr]
    exact lookup_eq_none_of_not_mem_keys code_mapping r.code hnk
  · intro t₂ r₂ h₂ hcode
    rw [hr, mem_normalize_iso L t₂ r₂ h₂, hcode]

/-- Witness for C2 at the scenario table: the normalized Belgium row
resolves BE to the geocode BEL. -/
theorem c2_geo_code_witness : rowBE.iso_alpha = some "BEL" :=
  (c2_geo_code pycountry_lookup sampleSource rowBE (by decide)).2.1 "BEL"
    (by decide)

/-- C3: `load_data` yields the NotFound result (`None`) exactly when
reading the CSV raises `FileNotFoundError`; a successfully read file
yields the normalized table, and any other read fault propagates to
the caller unchanged, never becoming NotFound. -/
theorem c3_notfound_iff_absent (L : String → Option String) (r : ReadCSV) :
    (load_data L r = Except.ok none ↔ r = ReadCSV.fileNotFound) ∧
    (∀ t, r = ReadCSV.ok t →
      load_data L r = Except.ok (some (normalize L t))) ∧
    (∀ e, r = ReadCSV.failed e → load_data L r = Except.error e) := by
  refine ⟨?_, ?_, ?_⟩ <;> cases r <;> simp [load_data]

/-- Witness for C3 at concrete read outcomes: an absent file yields
NotFound, the scenario table loads normalized, a parse fault
propagates. -/
theorem c3_notfound_witness :
    load_data pycountry_lookup ReadCSV.fileNotFound = Except.ok none ∧
    load_data pycountry_lookup (ReadCSV.ok sampleSource) =
      Except.ok (some (normalize pycountry_lookup sampleSource)) ∧
    load_data pycountry_lookup (ReadCSV.failed "bad row") =
      Except.error "bad row" := by
  refine ⟨?_, ?_, ?_⟩
  · exact (c3_notfound_iff_absent pycountry_lookup
      ReadCSV.fileNotFound).1.mpr rfl
  · exact (c3_notfound_iff_absent pycountry_lookup
      (ReadCSV.ok sampleSource)).2.1 sampleSource rfl
  · exact (c3_notfound_iff_absent pycountry_lookup
      (ReadCSV.failed "bad row")).2.2 "bad row" rfl

/-- C4: `country_name` resolution is total — when the reference lookup
yields a name the row carries that name, when it yields nothing the
row carries the original code verbatim, and for every reference table
loading a present file succeeds with the normalized table, so a failed
name lookup never fails the whole load. -/
theorem c4_country_name_total (L : String → Option String) (c : String) :
    (∀ n, L c = some n → get_country_name L c = n) ∧
    (L c = none → get_country_name L c = c) ∧
    (∀ t : List SourceRow,
      load_data L (ReadCSV.ok t) = Except.ok (some (normalize L t))) := by
  refine ⟨?_, ?_, fun t => rfl⟩
  · intro n h
    simp [get_country_name, h]
  · intro h
    simp [get_country_name, h]

/-- Witness for C4: BE resolves to Belgium, while the code XK, absent
from the reference table, falls back to itself. -/
theorem c4_country_name_witness :
    get_country_name pycountry_lookup "BE" = "Belgium" ∧
    get_country_name pycountry_lookup "XK" = "XK" := by
  constructor
  · exact (c4_country_name_total pycountry_lookup "BE").1 "Belgium" rfl
  · exact (c4_country_name_total pycountry_lookup "XK").2.1 rfl

/-- C5: the filtered table is an order-preserving sublist of the input
table, every one of its rows carries the selected label, every input
row carrying the selected label occurs in it with its full
multiplicity, and when no input row matches the result is the empty
table, not an error. -/
theorem c5_filter_exact (t : List Row) (l : String) :
    (df_filtered t l).Sublist t ∧
    (∀ r ∈ df_filtered t l, r.question = l) ∧
    (∀ r : Row, r.question = l →
      (df_filtered t l).count r = t.count r) ∧
    ((∀ r ∈ t, r.question ≠ l) → df_filtered t l = []) := by
  rw [df_filtered_eq_filter]
  refine ⟨List.filter_sublist t, ?_, ?_, ?_⟩
  · intro r hr
    have hq := (List.mem_filter.mp hr).2
    simpa using hq
  · intro r hrq
    apply List.count_filter
    simp [hrq]
  · intro hnone
    rw [List.filter_eq_nil_iff]
    intro a ha
    simp [hnone a ha]

/-- Witness for C5 at the scenario table: the Belgium row keeps its
multiplicity under its own label, and an unmatched label filters to
the empty table. -/
theorem c5_filter_witness :
    (df_filtered sampleTable lbl1).count rowBE = sampleTable.count rowBE ∧
    df_filtered sampleTable "unmatched label" = [] := by
  constructor
  · exact (c5_filter_exact sampleTable lbl1).2.2.1 rowBE (by decide)
  · exact (c5_filter_exact sampleTable "unmatched label").2.2.2 (by decide)

/-- C6: normalization preserves the row count exactly — the table
returned by `load_data` has as many rows as the source table. -/
theorem c6_row_count_preserved (L : String → Option String)
    (t : List SourceRow) : (normalize L t).length = t.length := by
  simp [normalize]

/-- C7: the sorted display rows are a permutation of the filtered rows
projected to (country_name, acceptance), they are sorted descending on
the numeric acceptance value, each displayed cell is the decimal
string of its acceptance suffixed with a percent sign, and on the
scenario table Belgium at 91.0 percent sorts above Germany at 84.5
percent. -/
theorem c7_display_table (fl : List Row) :
    (df_display_sorted fl).Perm (fl.map projRow) ∧
    List.Sorted accDesc (df_display_sorted fl) ∧
    df_display fl =
      (df_display_sorted fl).map (fun p => (p.1, pyFloatStr p.2 ++ "%")) ∧
    df_display (normalize pycountry_lookup sampleSource) =
      [("Belgium", "91.0%"), ("Germany", "84.5%")] := by
  refine ⟨List.perm_insertionSort accDesc (fl.map projRow),
    List.sorted_insertionSort accDesc (fl.map projRow), rfl, by decide⟩

/-- C8: the question mapping is a static 1:1 table of exactly 4
entries with distinct identifiers and distinct labels; a source row
whose identifier the mapping sends to a label is normalized to carry
exactly that label, and in particular the sheet-1 identifier relabels
to the equal-rights label. -/
theorem c8_relabel_in_mapping (L : String → Option String) (s : SourceRow)
    (lbl : String) (h : question_mapping.lookup s.question = some lbl) :
    (normRow L s).question = lbl ∧
    question_mapping.length = 4 ∧
    (question_mapping.map Prod.fst).Nodup ∧
    fixedLabels.Nodup ∧
    replaceVal question_mapping qid1 =
      "Equal rights for gay, lesbian, and bisexual people" := by
  refine ⟨?_, by decide, by decide, by decide, by decide⟩
  simp [normRow, replaceVal, h]

/-- Witness for C8: the Belgium scenario row, whose identifier is the
sheet-1 identifier, is normalized to the equal-rights label. -/
theorem c8_relabel_witness :
    (normRow pycountry_lookup ⟨qid1, "BE", 91⟩).question =
      "Equal rights for gay, lesbian, and bisexual people" :=
  (c8_relabel_in_mapping pycountry_lookup ⟨qid1, "BE", 91⟩
    "Equal rights for gay, lesbian, and bisexual people" (by decide)).1

/-- C9: no selection mutates the cached normalized table — a single
selection returns the session state unchanged, and after any sequence
of selections the cached table equals the table present just after
load. -/
theorem c9_no_mutation (s : AppState) (ls : List String) :
    (runSelections s ls).df = s.df ∧
    ∀ l, (runSelection s l).2 = s := by
  constructor
  · induction ls generalizing s with
    | nil => rfl
    | cons l ls ih =>
      simp only [runSelections, runSelection]
      exact ih s
  · intro l
    rfl

/-- C10: a source row whose question identifier is outside the fixed
mapping passes through normalization with its identifier verbatim as
its label — the relabeling step neither fails nor substitutes a
default — and such a row still appears in the normalized table. -/
theorem c10_unknown_passthrough (L : String → Option String)
    (s : SourceRow) (h : question_mapping.lookup s.question = none) :
    (normRow L s).question = s.question ∧
    ∀ t : List SourceRow, s ∈ t → normRow L s ∈ normalize L t := by
  constructor
  · simp [normRow, replaceVal, h]
  · intro t hs
    exact List.mem_map_of_mem (normRow L) hs

/-- Witness for C10: the row with the unknown identifier keeps it
verbatim as its label. -/
theorem c10_unknown_witness :
    (normRow pycountry_lookup bogusRow).question = bogusRow.question :=
  (c10_unknown_passthrough pycountry_lookup bogusRow (by decide)).1

end EUMap
